import Mathlib

/-!
Shallow embedding of the auth-service session layer.

Sources embedded:
- `AuthService` (src/src/modules/auth/auth.service.ts): validateUser, login,
  refreshToken, getProfile, logout.
- `RedisService` (src/unnamed/part_011, the variant whose methods
  `revokeRefreshTokenWithTracking`, `wasTokenRecentlyRevoked`,
  `forceLogoutUser`, `saveRefreshTokenAndResetAttempts` the AuthService calls).
- `CookieJwtAuthGuard.handleRequest` (src/unnamed/part_004).
- the `admin/force-logout` route of `AuthController`
  (src/src/modules/auth/auth.controller.ts).
- constants from `SecurityConfig` (src/config/security.config.ts, reproduced in
  the repository audit document src/unnamed/part_019).

Modelling conventions:
- The Redis store is a pure state value; every client round trip (a single
  command or one pipeline) is one atomic state transition.  Treating a
  pipeline as atomic is generous to the code: ioredis pipelines are not
  MULTI transactions, so any race provable under this model is also present
  in the real system.
- A store outage is modelled by boolean availability flags, one per client
  round trip of the modelled operation; a `false` flag means that round trip
  throws.  `safeExecute` maps a thrown operation to its fallback value.
- TTL bookkeeping is recorded as data (no clock): entries carry the TTL in
  seconds they were written with.  Claims about expiry windows are stated as
  claims about the recorded TTLs.
- JWT signing is injected: freshly minted token strings are parameters and
  verification is an environment function, since real tokens carry an
  issued-at claim and are opaque here.
- A TS falsy password (null or empty string) is modelled as `""`.
- `JSON.stringify`/`JSON.parse` round-tripping of cached profiles is
  abstracted: the cache stores the profile value itself.
-/

namespace AuthSpec

/-- A fully qualified token coordinate `(role, userId, token)`.  It addresses
the Redis key `refresh_token:role:userId:token`, the membership of `token` in
the set `user_tokens:role:userId`, and the key
`revoked_token:role:userId:token`. -/
abbrev TokKey := String × Nat × String

/-- Durable user record as returned by the Prisma lookups.  `password = ""`
models a TS falsy password (null or empty).  `status` is the operator
eligibility field, `statusWork` the master eligibility field. -/
structure UserRec where
  id : Nat
  login : String
  name : String
  password : String
  status : String
  statusWork : String
  cities : Option (List String)
deriving DecidableEq, Repr

/-- JWT payload (src/src/modules/auth/interfaces/auth.interface.ts): sub,
login, role, name, cities. -/
structure JwtPayload where
  sub : Nat
  login : String
  role : String
  name : String
  cities : Option (List String)
deriving DecidableEq, Repr

/-- Profile payload returned by getProfile: the role-specific record plus the
role (the per-role field projection of the Prisma `select` is abstracted). -/
structure UserProfile where
  base : UserRec
  role : String
deriving DecidableEq, Repr

/-- The ephemeral session store (Redis) contents relevant to the service.
`attempts` maps a lock identifier to `(count, ttlSeconds)`; `forceFlags` maps
`(role, userId)` to the TTL the flag was set with; `profileCache` maps a cache
key to `(payload, ttlSeconds)`. -/
structure RedisState where
  tokenKeys : List TokKey
  tokenSets : List TokKey
  revokedKeys : List TokKey
  attempts : List (String × Nat × Nat)
  forceFlags : List ((String × Nat) × Nat)
  profileCache : List (String × UserProfile × Nat)
deriving DecidableEq, Repr

/-- SecurityConfig.MAX_LOGIN_ATTEMPTS. -/
def MAX_LOGIN_ATTEMPTS : Nat := 10
/-- SecurityConfig.LOGIN_LOCK_DURATION_SECONDS. -/
def LOGIN_LOCK_DURATION_SECONDS : Nat := 600
/-- SecurityConfig.SECONDS_PER_MINUTE. -/
def SECONDS_PER_MINUTE : Nat := 60
/-- SecurityConfig.REVOKED_TOKEN_TRACKING_TTL (1 hour). -/
def REVOKED_TOKEN_TRACKING_TTL : Nat := 3600
/-- SecurityConfig.PROFILE_CACHE_TTL (15 minutes). -/
def PROFILE_CACHE_TTL : Nat := 900
/-- SecurityConfig.ACCESS_TOKEN_TTL, the string literal 15m, in seconds. -/
def ACCESS_TOKEN_TTL_SECONDS : Nat := 900
/-- SecurityConfig.REFRESH_TOKEN_DEFAULT_TTL, the string literal 7d, in seconds. -/
def REFRESH_TTL_SECONDS : Nat := 604800
/-- Default ttlSeconds of RedisService.forceLogoutUser: 15 * 60. -/
def FORCE_LOGOUT_TTL_SECONDS : Nat := 15 * 60
/-- The login-attempt window set by recordLoginAttempt: 10 * 60 seconds. -/
def LOGIN_ATTEMPT_WINDOW_SECONDS : Nat := 10 * 60

/-- secondsToMinutes helper from security.config.ts: ceiling division by 60. -/
def secondsToMinutes (s : Nat) : Nat := (s + 59) / 60

/-- Insert a key if absent (SETEX of an existing key and SADD of a present
member are idempotent on presence). -/
def insertTok (k : TokKey) (l : List TokKey) : List TokKey :=
  if k ∈ l then l else l ++ [k]

/-- Remove every occurrence of a key (DEL / SREM). -/
def removeTok (k : TokKey) (l : List TokKey) : List TokKey :=
  l.filter (fun x => decide (x ≠ k))

-- ==================== RedisService (src/unnamed/part_011) ====================

/-- RedisService.isRefreshTokenValid: EXISTS refresh_token:role:userId:token. -/
def isRefreshTokenValid (userId : Nat) (role token : String) (st : RedisState) : Bool :=
  decide ((role, userId, token) ∈ st.tokenKeys)

/-- RedisService.saveRefreshToken: one pipeline (SETEX token key, SADD user
set, EXPIRE set). -/
def saveRefreshToken (userId : Nat) (role token : String) (ttlSeconds : Nat)
    (st : RedisState) : RedisState :=
  { st with
    tokenKeys := insertTok (role, userId, token) st.tokenKeys
    tokenSets := insertTok (role, userId, token) st.tokenSets }

/-- RedisService.revokeRefreshTokenWithTracking: one pipeline (DEL token key,
SREM from user set, SETEX revoked_token tracking key). -/
def revokeRefreshTokenWithTracking (userId : Nat) (role token : String)
    (trackingTTL : Nat) (st : RedisState) : RedisState :=
  { st with
    tokenKeys := removeTok (role, userId, token) st.tokenKeys
    tokenSets := removeTok (role, userId, token) st.tokenSets
    revokedKeys := insertTok (role, userId, token) st.revokedKeys }

/-- RedisService.wasTokenRecentlyRevoked: EXISTS revoked_token key. -/
def wasTokenRecentlyRevoked (userId : Nat) (role token : String)
    (st : RedisState) : Bool :=
  decide ((role, userId, token) ∈ st.revokedKeys)

/-- SMEMBERS user_tokens:role:userId. -/
def setMembers (userId : Nat) (role : String) (st : RedisState) : List String :=
  (st.tokenSets.filter (fun x => decide (x.1 = role ∧ x.2.1 = userId))).map
    (fun x => x.2.2)

/-- RedisService.revokeAllUserTokens: SMEMBERS the user set; if empty, return;
else one pipeline deleting each listed token key and the set itself. -/
def revokeAllUserTokens (userId : Nat) (role : String) (st : RedisState) : RedisState :=
  if setMembers userId role st = [] then st
  else
    { st with
      tokenKeys := st.tokenKeys.filter
        (fun x => decide (¬ (x.1 = role ∧ x.2.1 = userId ∧ x.2.2 ∈ setMembers userId role st)))
      tokenSets := st.tokenSets.filter
        (fun x => decide (¬ (x.1 = role ∧ x.2.1 = userId))) }

/-- Read the attempts entry (count, remaining window TTL) for an identifier. -/
def attemptsEntry (identifier : String) (st : RedisState) : Option (Nat × Nat) :=
  (st.attempts.find? (fun p => p.1 == identifier)).map (fun p => p.2)

/-- RedisService.getLoginAttempts: GET login_attempts:identifier, 0 if absent. -/
def getLoginAttempts (identifier : String) (st : RedisState) : Nat :=
  ((attemptsEntry identifier st).map (fun p => p.1)).getD 0

/-- RedisService.getLockTTL: TTL of login_attempts:identifier, 0 if absent. -/
def getLockTTL (identifier : String) (st : RedisState) : Nat :=
  ((attemptsEntry identifier st).map (fun p => p.2)).getD 0

/-- DEL login_attempts:identifier. -/
def delAttempts (identifier : String) (l : List (String × Nat × Nat)) :
    List (String × Nat × Nat) :=
  l.filter (fun p => !(p.1 == identifier))

/-- RedisService.recordLoginAttempt: INCR the counter, EXPIRE with the
10-minute window on the first increment; returns the new count. -/
def recordLoginAttempt (identifier : String) (st : RedisState) : Nat × RedisState :=
  let n := getLoginAttempts identifier st + 1
  let ttl := if n = 1 then LOGIN_ATTEMPT_WINDOW_SECONDS else getLockTTL identifier st
  (n, { st with attempts := delAttempts identifier st.attempts ++ [(identifier, n, ttl)] })

/-- RedisService.isAccountLocked: attempts at least maxAttempts. -/
def isAccountLocked (identifier : String) (maxAttempts : Nat) (st : RedisState) : Bool :=
  decide (maxAttempts ≤ getLoginAttempts identifier st)

/-- RedisService.resetLoginAttempts: DEL the counter key. -/
def resetLoginAttempts (identifier : String) (st : RedisState) : RedisState :=
  { st with attempts := delAttempts identifier st.attempts }

/-- RedisService.forceLogoutUser: SETEX force_logout:role:userId for
ttlSeconds. -/
def forceLogoutUser (userId : Nat) (role : String) (ttlSeconds : Nat)
    (st : RedisState) : RedisState :=
  { st with forceFlags :=
      (st.forceFlags.filter (fun p => !(p.1 == (role, userId)))) ++
        [((role, userId), ttlSeconds)] }

/-- RedisService.isUserForcedLogout: GET force_logout:role:userId equals 1. -/
def isUserForcedLogout (userId : Nat) (role : String) (st : RedisState) : Bool :=
  (st.forceFlags.find? (fun p => p.1 == (role, userId))).isSome

/-- TTL the force-logout flag was written with, if present. -/
def forceFlagTTL (userId : Nat) (role : String) (st : RedisState) : Option Nat :=
  (st.forceFlags.find? (fun p => p.1 == (role, userId))).map (fun p => p.2)

/-- RedisService.saveRefreshTokenAndResetAttempts: ONE pipeline performing
SETEX token key, SADD user set, EXPIRE set, DEL login_attempts — modelled as a
single atomic transition. -/
def saveRefreshTokenAndResetAttempts (userId : Nat) (role token : String)
    (ttlSeconds : Nat) (lockIdentifier : String) (st : RedisState) : RedisState :=
  { st with
    tokenKeys := insertTok (role, userId, token) st.tokenKeys
    tokenSets := insertTok (role, userId, token) st.tokenSets
    attempts := delAttempts lockIdentifier st.attempts }

/-- Profile-cache read: GET profile:role:id (parsed payload), none if absent. -/
def cacheGet (key : String) (st : RedisState) : Option UserProfile :=
  (st.profileCache.find? (fun p => p.1 == key)).map (fun p => p.2.1)

/-- TTL a cache entry was written with, if present. -/
def cacheTTL (key : String) (st : RedisState) : Option Nat :=
  (st.profileCache.find? (fun p => p.1 == key)).map (fun p => p.2.2)

/-- Profile-cache write: SETEX profile:role:id with the serialized payload. -/
def cacheSet (key : String) (v : UserProfile) (ttl : Nat) (st : RedisState) : RedisState :=
  { st with profileCache :=
      (st.profileCache.filter (fun p => !(p.1 == key))) ++ [(key, v, ttl)] }

/-- RedisService.safeExecute: run the operation; on a thrown backend error
(`Except.error`) log and return the fallback value instead of propagating. -/
def safeExecute {α : Type} (operation : Except Unit α) (fallbackValue : α) : α :=
  match operation with
  | .ok a => a
  | .error _ => fallbackValue

-- ==================== AuthService (auth.service.ts) ====================

/-- One Prisma table: findUnique by login and by id. -/
structure Table where
  byLogin : String → Option UserRec
  byId : Nat → Option UserRec

/-- The four role tables consumed by the service (prisma.callcentreAdmin,
prisma.callcentreOperator, prisma.director, prisma.master). -/
structure Db where
  callcentreAdmin : Table
  callcentreOperator : Table
  director : Table
  master : Table

/-- Injected crypto environment: bcrypt.compare, the process-wide dummy hash,
and jwtService.verify with the refresh secret. -/
structure Env where
  compare : String → String → Bool
  dummyHash : String
  verifyRefresh : String → Option JwtPayload

/-- The switch over `role as UserRole` in validateUser: `some` is the lookup
result of the matching table, `none` is the default branch (unknown role). -/
def lookupByRole (db : Db) (role loginName : String) : Option (Option UserRec) :=
  if role = "admin" then some (db.callcentreAdmin.byLogin loginName)
  else if role = "operator" then some (db.callcentreOperator.byLogin loginName)
  else if role = "director" then some (db.director.byLogin loginName)
  else if role = "master" then some (db.master.byLogin loginName)
  else none

/-- Is the role one of the four UserRole enum values. -/
def roleRecognized (role : String) : Bool :=
  role == "admin" || role == "operator" || role == "director" || role == "master"

/-- AuthService.validateUser.  Returns the validated user (null on every
failure path) together with the log of bcrypt.compare invocations as
(password, hash) pairs.  The default switch branch returns null before any
comparison; otherwise `hashToCompare = user?.password || this.dummyHash` and
exactly one comparison runs, followed by the uniform null checks:
user missing or password invalid; operator with status different from
active; master with falsy password or statusWork different from работает. -/
def validateUser (env : Env) (db : Db) (loginName password role : String) :
    Option UserRec × List (String × String) :=
  match lookupByRole db role loginName with
  | none => (none, [])
  | some user =>
    let hashToCompare :=
      match user with
      | some u => if u.password = "" then env.dummyHash else u.password
      | none => env.dummyHash
    let isPasswordValid := env.compare password hashToCompare
    let comparisons := [(password, hashToCompare)]
    match user with
    | none => (none, comparisons)
    | some u =>
      if ¬ isPasswordValid then (none, comparisons)
      else if role = "operator" ∧ u.status ≠ "active" then (none, comparisons)
      else if role = "master" ∧ (u.password = "" ∨ u.statusWork ≠ "работает") then
        (none, comparisons)
      else (some u, comparisons)

/-- Caller-visible outcome of login, mirroring the distinct responses thrown
or returned by AuthService.login.  `storeError` is a raw store exception that
escaped login (it is none of the documented taxonomy). -/
inductive LoginResult where
  | locked (minutesLeft : Nat)
  | invalidCredentials (remaining : Nat)
  | lockedAfterAttempts (minutes : Nat)
  | invalidCredentialsPlain
  | success (userId : Nat) (accessToken refreshToken : String)
  | storeError
deriving DecidableEq, Repr

/-- Availability of each store round trip performed by login: the
safeExecute-wrapped isAccountLocked, the UNwrapped getLockTTL on the locked
path, the safeExecute-wrapped recordLoginAttempt, and the safeExecute-wrapped
saveRefreshTokenAndResetAttempts pipeline. -/
structure StoreOk where
  lockCheck : Bool := true
  lockTTL : Bool := true
  recordAttempt : Bool := true
  save : Bool := true
deriving DecidableEq, Repr

/-- All store round trips available. -/
def allOk : StoreOk := {}

/-- AuthService.login.  `accessTok`/`refreshTok` are the freshly signed JWT
strings.  Returns the caller-visible result, the store state after the call,
and whether validateUser was invoked.  Structure of the source:
lockIdentifier is login:role; the lockout check runs through safeExecute with
fallback false; a locked account reads getLockTTL WITHOUT safeExecute and
throws Forbidden with the remaining minutes; a failed validation records the
attempt through safeExecute with fallback 0 and throws one of three responses
chosen only by the resulting count; a successful validation persists the
refresh token and clears the counter in the single
saveRefreshTokenAndResetAttempts pipeline through safeExecute with fallback
undefined, then returns the pair. -/
def login (env : Env) (db : Db) (ok : StoreOk)
    (loginName password role accessTok refreshTok : String)
    (st : RedisState) : LoginResult × RedisState × Bool :=
  let lockIdentifier := loginName ++ ":" ++ role
  let isLocked := safeExecute
    (if ok.lockCheck then .ok (isAccountLocked lockIdentifier MAX_LOGIN_ATTEMPTS st)
     else .error ()) false
  if isLocked then
    if ok.lockTTL then
      (.locked (secondsToMinutes (getLockTTL lockIdentifier st)), st, false)
    else
      (.storeError, st, false)
  else
    match (validateUser env db loginName password role).1 with
    | none =>
      let recorded :=
        if ok.recordAttempt then recordLoginAttempt lockIdentifier st
        else (0, st)
      let attempts := recorded.1
      let remainingAttempts := MAX_LOGIN_ATTEMPTS - attempts
      if 0 < remainingAttempts ∧ 0 < attempts then
        (.invalidCredentials remainingAttempts, recorded.2, true)
      else if MAX_LOGIN_ATTEMPTS ≤ attempts then
        (.lockedAfterAttempts (LOGIN_LOCK_DURATION_SECONDS / SECONDS_PER_MINUTE),
          recorded.2, true)
      else
        (.invalidCredentialsPlain, recorded.2, true)
    | some user =>
      let st2 :=
        if ok.save then
          saveRefreshTokenAndResetAttempts user.id role refreshTok
            REFRESH_TTL_SECONDS lockIdentifier st
        else st
      (.success user.id accessTok refreshTok, st2, true)

/-- Caller-visible outcome of refreshToken: the new pair, the
security-violation teardown response, the ordinary revoked-token response, or
the catch-all invalid-or-expired response. -/
inductive RefreshResult where
  | refreshed (accessToken refreshToken : String)
  | securityViolation
  | revoked
  | invalidOrExpired
deriving DecidableEq, Repr

/-- Availability of the two store reads of refreshToken that precede any
write: the isRefreshTokenValid EXISTS and the wasTokenRecentlyRevoked EXISTS.
Neither runs through safeExecute; a throw lands in the catch-all, which maps
every non-Unauthorized error to the invalid-or-expired response. -/
structure RefreshOk where
  check : Bool := true
  revokedCheck : Bool := true
deriving DecidableEq, Repr

/-- AuthService.refreshToken.  Verify the JWT (failure lands in the
catch-all); check the stateful record; if absent, consult the tombstone: a
hit tears down every token of the principal and answers securityViolation,
a miss answers the ordinary revoked error; if present, revoke-with-tracking,
mint and persist the fresh pair. -/
def refreshTokenModel (env : Env) (ok : RefreshOk) (newAccess newRefresh : String)
    (tok : String) (st : RedisState) : RefreshResult × RedisState :=
  match env.verifyRefresh tok with
  | none => (.invalidOrExpired, st)
  | some payload =>
    if ok.check then
      if isRefreshTokenValid payload.sub payload.role tok st then
        let st1 := revokeRefreshTokenWithTracking payload.sub payload.role tok
          REVOKED_TOKEN_TRACKING_TTL st
        let st2 := saveRefreshToken payload.sub payload.role newRefresh
          REFRESH_TTL_SECONDS st1
        (.refreshed newAccess newRefresh, st2)
      else if ok.revokedCheck then
        if wasTokenRecentlyRevoked payload.sub payload.role tok st then
          (.securityViolation, revokeAllUserTokens payload.sub payload.role st)
        else
          (.revoked, st)
      else
        (.invalidOrExpired, st)
    else
      (.invalidOrExpired, st)

/-- Caller-visible outcome of getProfile. -/
inductive ProfileResult where
  | found (p : UserProfile)
  | notFound
deriving DecidableEq, Repr

/-- The switch over role in getProfile: the role-specific findUnique by id,
null for a role outside the enum. -/
def profileLookupById (db : Db) (role : String) (id : Nat) : Option UserRec :=
  if role = "admin" then db.callcentreAdmin.byId id
  else if role = "operator" then db.callcentreOperator.byId id
  else if role = "director" then db.director.byId id
  else if role = "master" then db.master.byId id
  else none

/-- AuthService.getProfile.  The cache read runs through safeExecute with
fallback null (a store failure is a miss); a hit returns the cached payload;
a miss loads the role-specific projection by id, 404s when absent, writes the
payload back with PROFILE_CACHE_TTL through safeExecute (best effort) and
returns it.  The third component records whether the external (Prisma)
lookup was invoked. -/
def getProfileModel (db : Db) (cacheReadOk cacheWriteOk : Bool)
    (user : JwtPayload) (st : RedisState) : ProfileResult × RedisState × Bool :=
  let cacheKey := "profile:" ++ user.role ++ ":" ++ toString user.sub
  let cached := safeExecute
    (if cacheReadOk then .ok (cacheGet cacheKey st) else .error ()) none
  match cached with
  | some p => (.found p, st, false)
  | none =>
    match profileLookupById db user.role user.sub with
    | none => (.notFound, st, roleRecognized user.role)
    | some u =>
      let result : UserProfile := ⟨u, user.role⟩
      let st1 := if cacheWriteOk then cacheSet cacheKey result PROFILE_CACHE_TTL st else st
      (.found result, st1, roleRecognized user.role)

/-- AuthService.logout: revokeAllUserTokens for the principal. -/
def logoutModel (user : JwtPayload) (st : RedisState) : RedisState :=
  revokeAllUserTokens user.sub user.role st

-- ============ CookieJwtAuthGuard.handleRequest (src/unnamed/part_004) ============

/-- Outcome of the guard: the authenticated payload or an Unauthorized
rejection (any of its message flavors). -/
inductive GuardResult where
  | allowed (u : JwtPayload)
  | unauthorized
deriving DecidableEq, Repr

/-- CookieJwtAuthGuard.handleRequest.  `user` is the JWT-validated payload
(none models err or a missing user, rejected up front).  When sub and role
are truthy, the force-logout flag is read; a set flag rejects with
Unauthorized; a store failure on that read is swallowed and the request is
allowed (graceful degradation). -/
def handleRequest (flagCheckOk : Bool) (user : Option JwtPayload)
    (st : RedisState) : GuardResult :=
  match user with
  | none => .unauthorized
  | some u =>
    if u.sub ≠ 0 ∧ u.role ≠ "" then
      if flagCheckOk then
        if isUserForcedLogout u.sub u.role st then .unauthorized else .allowed u
      else
        .allowed u
    else
      .allowed u

-- ============ Force logout (auth.controller.ts + spec model) ============

/-- Modelled from the spec: `AuthService.forceLogout` is called by the
controller but its body is not among the source files under src (only its
collaborators `RedisService.revokeAllUserTokens` and
`RedisService.forceLogoutUser` are).  Spec 4.4: ForceLogout(principalId,
role) is RevokeAll plus writing a ForceLogoutFlag with TTL at least the
access-token TTL; the repository FORCE_LOGOUT document gives the flag the
15-minute default TTL of forceLogoutUser. -/
def forceLogoutService (targetId : Nat) (targetRole : String)
    (st : RedisState) : RedisState :=
  forceLogoutUser targetId targetRole FORCE_LOGOUT_TTL_SECONDS
    (revokeAllUserTokens targetId targetRole st)

/-- Outcome of the admin/force-logout route. -/
inductive ForceLogoutResult where
  | done
  | forbidden
deriving DecidableEq, Repr

/-- AuthController.forceLogout: a caller whose role is not admin is rejected
with Forbidden before any state change; an admin caller runs the force-logout
service against the target principal. -/
def forceLogoutController (callerRole : String) (targetId : Nat)
    (targetRole : String) (st : RedisState) : ForceLogoutResult × RedisState :=
  if callerRole ≠ "admin" then (.forbidden, st)
  else (.done, forceLogoutService targetId targetRole st)

-- ============ Concurrent redemption, small-step (for the race analysis) ============

/-- Program counter of one in-flight refreshToken call, between its atomic
store round trips.  The happy path is start → revokePhase → savePhase → done;
the not-found path is start → tombCheck → (teardown →) done. -/
inductive RedeemPC where
  | start
  | revokePhase
  | savePhase
  | tombCheck
  | teardown
  | doneWith (r : RefreshResult)
deriving DecidableEq, Repr

/-- One in-flight redeem call: its program counter and the fresh pair it will
mint on success. -/
structure RedeemThread where
  pc : RedeemPC
  newAccess : String
  newRefresh : String
deriving DecidableEq, Repr

/-- One atomic store round trip of refreshToken for payload `p` redeeming
`tok`, exactly as sequenced by the source: the EXISTS check
(isRefreshTokenValid) is one round trip, the revoke-with-tracking pipeline a
second, the save pipeline a third; on the not-found path the tombstone EXISTS
and the teardown are their own round trips. -/
def stepRedeem (p : JwtPayload) (tok : String) (th : RedeemThread)
    (st : RedisState) : RedeemThread × RedisState :=
  match th.pc with
  | .start =>
    if isRefreshTokenValid p.sub p.role tok st then
      ({ th with pc := .revokePhase }, st)
    else
      ({ th with pc := .tombCheck }, st)
  | .revokePhase =>
    ({ th with pc := .savePhase },
      revokeRefreshTokenWithTracking p.sub p.role tok REVOKED_TOKEN_TRACKING_TTL st)
  | .savePhase =>
    ({ th with pc := .doneWith (.refreshed th.newAccess th.newRefresh) },
      saveRefreshToken p.sub p.role th.newRefresh REFRESH_TTL_SECONDS st)
  | .tombCheck =>
    if wasTokenRecentlyRevoked p.sub p.role tok st then
      ({ th with pc := .teardown }, st)
    else
      ({ th with pc := .doneWith .revoked }, st)
  | .teardown =>
    ({ th with pc := .doneWith .securityViolation },
      revokeAllUserTokens p.sub p.role st)
  | .doneWith _ => (th, st)

/-- Run two concurrent redeem calls of the same token under a schedule:
`true` steps the first thread, `false` the second. -/
def runSchedule (p : JwtPayload) (tok : String) :
    List Bool → RedeemThread × RedeemThread × RedisState →
    RedeemThread × RedeemThread × RedisState
  | [], s => s
  | b :: rest, (t0, t1, st) =>
    if b then
      let s0 := stepRedeem p tok t0 st
      runSchedule p tok rest (s0.1, t1, s0.2)
    else
      let s1 := stepRedeem p tok t1 st
      runSchedule p tok rest (t0, s1.1, s1.2)

-- ============ Derived notions used by the statements ============

/-- The hash validateUser hands to bcrypt.compare for a given attempt:
`user?.password || this.dummyHash` over the role-specific lookup. -/
def hashForAttempt (env : Env) (db : Db) (role loginName : String) : String :=
  match lookupByRole db role loginName with
  | some (some u) => if u.password = "" then env.dummyHash else u.password
  | _ => env.dummyHash

/-- All live refresh-token keys of a principal. -/
def userTokens (userId : Nat) (role : String) (st : RedisState) : List TokKey :=
  st.tokenKeys.filter (fun x => decide (x.1 = role ∧ x.2.1 = userId))

/-- Store invariant: every live token key of the principal is indexed in the
principal's user_tokens set.  Every write path maintains it: both save
pipelines SADD the token they SETEX, and both revoke pipelines SREM the token
they DEL. -/
def TokensIndexed (userId : Nat) (role : String) (st : RedisState) : Prop :=
  ∀ k : TokKey, k ∈ st.tokenKeys → k.1 = role → k.2.1 = userId → k ∈ st.tokenSets

/-- Both pre-write reads of refreshToken available. -/
def allRefOk : RefreshOk := {}

-- ============ Concrete sample data for the closed statements ============

/-- A concrete eligible operator record, bcrypt hash abbreviated as H:pw. -/
def userOp : UserRec :=
  { id := 1, login := "opuser", name := "Op", password := "H:pw",
    status := "active", statusWork := "работает", cities := none }

/-- A table with no rows. -/
def emptyTable : Table := { byLogin := fun _ => none, byId := fun _ => none }

/-- A database holding exactly the one operator. -/
def dbA : Db :=
  { callcentreAdmin := emptyTable
    callcentreOperator :=
      { byLogin := fun l => if l = "opuser" then some userOp else none
        byId := fun i => if i = 1 then some userOp else none }
    director := emptyTable
    master := emptyTable }

/-- The JWT payload of the sample operator. -/
def payloadA : JwtPayload :=
  { sub := 1, login := "opuser", role := "operator", name := "Op", cities := none }

/-- Concrete crypto environment: compare succeeds exactly when the hash is
H: followed by the password; three refresh-token strings verify to the
sample payload. -/
def envA : Env :=
  { compare := fun p h => h == "H:" ++ p
    dummyHash := "DUMMY"
    verifyRefresh := fun t =>
      if t == "tokT" || t == "tokR1" || t == "tokR2" then some payloadA else none }

/-- The empty store. -/
def st0 : RedisState := ⟨[], [], [], [], [], []⟩

/-- A store holding one live refresh token tokT of the sample operator,
correctly indexed in the user set. -/
def stLive : RedisState :=
  ⟨[("operator", 1, "tokT")], [("operator", 1, "tokT")], [], [], [], []⟩

/-- A store in which the sample operator has exhausted the attempt window:
10 recorded attempts with 600 seconds left. -/
def stLocked : RedisState := ⟨[], [], [], [("opuser:operator", 10, 600)], [], []⟩

/-- First in-flight redeem call of the race. -/
def thread0 : RedeemThread := ⟨.start, "accA0", "tokR0"⟩

/-- Second in-flight redeem call of the race. -/
def thread1 : RedeemThread := ⟨.start, "accA1", "tokR1"⟩

/-- The interleaving: both calls pass the EXISTS liveness check before either
runs its delete pipeline, then each completes revoke and save. -/
def raceSchedule : List Bool := [true, false, true, true, false, false]

-- ===================== Helper lemmas =====================

theorem mem_insertTok {k a : TokKey} {l : List TokKey} :
    a ∈ insertTok k l ↔ a ∈ l ∨ a = k := by
  unfold insertTok
  by_cases h : k ∈ l
  · simp only [h, if_true]
    exact ⟨Or.inl, fun x => x.elim id (fun e => e ▸ h)⟩
  · simp [h]

theorem mem_removeTok {k a : TokKey} {l : List TokKey} :
    a ∈ removeTok k l ↔ a ∈ l ∧ a ≠ k := by
  unfold removeTok
  simp [List.mem_filter]

theorem find?_append_left_none {α : Type} {p : α → Bool} {l1 l2 : List α}
    (h : l1.find? p = none) : (l1 ++ l2).find? p = l2.find? p := by
  induction l1 with
  | nil => simp
  | cons x xs ih =>
    by_cases hx : p x
    · rw [List.find?_cons_of_pos _ hx] at h
      cases h
    · rw [List.find?_cons_of_neg _ hx] at h
      rw [List.cons_append, List.find?_cons_of_neg _ hx]
      exact ih h

theorem find?_filter_out {α β : Type} [BEq α] (k : α) (l : List (α × β)) :
    (l.filter (fun p => !(p.1 == k))).find? (fun p => p.1 == k) = none := by
  rw [List.find?_eq_none]
  intro x hx
  rw [List.mem_filter] at hx
  simpa using hx.2

theorem find?_upsert {α β : Type} [BEq α] [LawfulBEq α] (k : α) (v : β)
    (l : List (α × β)) :
    ((l.filter (fun p => !(p.1 == k))) ++ [(k, v)]).find? (fun p => p.1 == k) =
      some (k, v) := by
  rw [find?_append_left_none (find?_filter_out k l)]
  simp [List.find?]

theorem getLoginAttempts_after_save (userId : Nat) (role token : String)
    (ttl : Nat) (lockId : String) (st : RedisState) :
    getLoginAttempts lockId
      (saveRefreshTokenAndResetAttempts userId role token ttl lockId st) = 0 := by
  unfold getLoginAttempts attemptsEntry saveRefreshTokenAndResetAttempts delAttempts
  rw [find?_filter_out]
  rfl

theorem getLoginAttempts_after_record (identifier : String) (st : RedisState) :
    getLoginAttempts identifier (recordLoginAttempt identifier st).2 =
      getLoginAttempts identifier st + 1 := by
  unfold recordLoginAttempt
  unfold getLoginAttempts attemptsEntry delAttempts
  rw [find?_upsert]
  rfl

theorem isUserForcedLogout_after_set (userId : Nat) (role : String) (ttl : Nat)
    (st : RedisState) :
    isUserForcedLogout userId role (forceLogoutUser userId role ttl st) = true := by
  unfold isUserForcedLogout forceLogoutUser
  rw [find?_upsert]
  rfl

theorem forceFlagTTL_after_set (userId : Nat) (role : String) (ttl : Nat)
    (st : RedisState) :
    forceFlagTTL userId role (forceLogoutUser userId role ttl st) = some ttl := by
  unfold forceFlagTTL forceLogoutUser
  rw [find?_upsert]
  rfl

theorem cacheGet_after_set (key : String) (v : UserProfile) (ttl : Nat)
    (st : RedisState) : cacheGet key (cacheSet key v ttl st) = some v := by
  unfold cacheGet cacheSet
  rw [find?_upsert]
  rfl

theorem cacheTTL_after_set (key : String) (v : UserProfile) (ttl : Nat)
    (st : RedisState) : cacheTTL key (cacheSet key v ttl st) = some ttl := by
  unfold cacheTTL cacheSet
  rw [find?_upsert]
  rfl

theorem mem_setMembers {k : TokKey} {u : Nat} {r : String} {st : RedisState}
    (hk : k ∈ st.tokenSets) (hr : k.1 = r) (hu : k.2.1 = u) :
    k.2.2 ∈ setMembers u r st := by
  unfold setMembers
  exact List.mem_map.mpr ⟨k, List.mem_filter.mpr ⟨hk, by simp [hr, hu]⟩, rfl⟩

theorem revokeAll_clears (u : Nat) (r : String) (st : RedisState)
    (h : TokensIndexed u r st) :
    userTokens u r (revokeAllUserTokens u r st) = [] ∧
    setMembers u r (revokeAllUserTokens u r st) = [] := by
  unfold revokeAllUserTokens
  by_cases hemp : setMembers u r st = []
  · rw [if_pos hemp]
    refine ⟨?_, hemp⟩
    rw [userTokens, List.eq_nil_iff_forall_not_mem]
    intro k hk
    rw [List.mem_filter, decide_eq_true_eq] at hk
    have hmem := mem_setMembers (h k hk.1 hk.2.1 hk.2.2) hk.2.1 hk.2.2
    rw [hemp] at hmem
    cases hmem
  · rw [if_neg hemp]
    constructor
    · rw [userTokens, List.eq_nil_iff_forall_not_mem]
      intro k hk
      rw [List.mem_filter, decide_eq_true_eq] at hk
      obtain ⟨hk1, hmatch⟩ := hk
      rw [List.mem_filter, decide_eq_true_eq] at hk1
      have hmem := mem_setMembers (h k hk1.1 hmatch.1 hmatch.2) hmatch.1 hmatch.2
      exact hk1.2 ⟨hmatch.1, hmatch.2, hmem⟩
    · rw [setMembers, List.eq_nil_iff_forall_not_mem]
      intro t ht
      rw [List.mem_map] at ht
      obtain ⟨k, hk, _⟩ := ht
      rw [List.mem_filter, decide_eq_true_eq] at hk
      obtain ⟨hk1, hmatch⟩ := hk
      rw [List.mem_filter, decide_eq_true_eq] at hk1
      exact hk1.2 ⟨hmatch.1, hmatch.2⟩

theorem validateUser_comparisons (env : Env) (db : Db)
    (loginName password role : String) :
    (validateUser env db loginName password role).2 =
      match lookupByRole db role loginName with
      | none => []
      | some user =>
        [(password,
          match user with
          | some u => if u.password = "" then env.dummyHash else u.password
          | none => env.dummyHash)] := by
  unfold validateUser
  cases lookupByRole db role loginName with
  | none => rfl
  | some user =>
    cases user with
    | none => rfl
    | some u =>
      dsimp only
      split_ifs <;> rfl

theorem isRefreshTokenValid_after_save_pipeline (u : Nat) (r t : String)
    (ttl : Nat) (lockId : String) (st : RedisState) :
    isRefreshTokenValid u r t
      (saveRefreshTokenAndResetAttempts u r t ttl lockId st) = true := by
  unfold isRefreshTokenValid saveRefreshTokenAndResetAttempts
  simp [mem_insertTok]

theorem login_locked_eq (env : Env) (db : Db) (l p r a t : String)
    (st : RedisState)
    (hlock : isAccountLocked (l ++ ":" ++ r) MAX_LOGIN_ATTEMPTS st = true) :
    login env db allOk l p r a t st =
      (.locked (secondsToMinutes (getLockTTL (l ++ ":" ++ r) st)), st, false) := by
  unfold login
  simp [safeExecute, allOk, hlock]

theorem login_failure_eq (env : Env) (db : Db) (l p r a t : String)
    (st : RedisState)
    (hval : (validateUser env db l p r).1 = none)
    (hlock : isAccountLocked (l ++ ":" ++ r) MAX_LOGIN_ATTEMPTS st = false) :
    login env db allOk l p r a t st =
      ((if 0 < MAX_LOGIN_ATTEMPTS - (getLoginAttempts (l ++ ":" ++ r) st + 1) ∧
            0 < getLoginAttempts (l ++ ":" ++ r) st + 1 then
          LoginResult.invalidCredentials
            (MAX_LOGIN_ATTEMPTS - (getLoginAttempts (l ++ ":" ++ r) st + 1))
        else if MAX_LOGIN_ATTEMPTS ≤ getLoginAttempts (l ++ ":" ++ r) st + 1 then
          LoginResult.lockedAfterAttempts
            (LOGIN_LOCK_DURATION_SECONDS / SECONDS_PER_MINUTE)
        else LoginResult.invalidCredentialsPlain),
       (recordLoginAttempt (l ++ ":" ++ r) st).2, true) := by
  unfold login
  rw [hval]
  simp [safeExecute, allOk, hlock, recordLoginAttempt]
  split_ifs <;> rfl

theorem login_success_eq (env : Env) (db : Db) (l p r a t : String)
    (st : RedisState) (u : UserRec)
    (hval : (validateUser env db l p r).1 = some u)
    (hlock : isAccountLocked (l ++ ":" ++ r) MAX_LOGIN_ATTEMPTS st = false) :
    login env db allOk l p r a t st =
      (.success u.id a t,
       saveRefreshTokenAndResetAttempts u.id r t REFRESH_TTL_SECONDS
         (l ++ ":" ++ r) st,
       true) := by
  unfold login
  rw [hval]
  simp [safeExecute, allOk, hlock]

-- ===================== Claim theorems =====================

/-- C10: the refresh path fails closed on store outage.  Whenever the
session-store existence check inside refreshToken throws (the check is not
routed through safeExecute), the catch-all maps the error to the ordinary
invalid-or-expired rejection: no fallback value is substituted, no new token
pair is returned, and the store is left untouched. -/
theorem c10_refresh_fails_closed_on_outage (env : Env) (b : Bool)
    (newAccess newRefresh tok : String) (st : RedisState) :
    refreshTokenModel env ⟨false, b⟩ newAccess newRefresh tok st =
      (.invalidOrExpired, st) := by
  unfold refreshTokenModel
  cases env.verifyRefresh tok <;> simp

/-- C1: double redemption of one refresh token.  The source issues the
EXISTS liveness check and the delete pipeline as two sequential store round
trips, so under the interleaving in which both concurrent redeem calls pass
the EXISTS check before either deletes, BOTH calls finish with a fresh token
pair — exactly-once redemption fails, refuting the claim that one of the two
must answer InvalidToken or SecurityViolation. -/
theorem c1_double_redemption_race :
    (runSchedule payloadA "tokT" raceSchedule (thread0, thread1, stLive)).1.pc =
      .doneWith (.refreshed "accA0" "tokR0") ∧
    (runSchedule payloadA "tokT" raceSchedule (thread0, thread1, stLive)).2.1.pc =
      .doneWith (.refreshed "accA1" "tokR1") := by
  constructor <;> rfl

/-- C3 counterexample: with valid credentials and a session store whose
save pipeline throws, login still answers success with the minted pair, and
the returned refresh token is not tracked in the store — refuting the
claimed all-or-nothing behavior. -/
theorem c3_counterexample :
    (login envA dbA { save := false } "opuser" "pw" "operator" "accA" "tokT"
        st0).1 = .success 1 "accA" "tokT" ∧
    isRefreshTokenValid 1 "operator" "tokT"
      (login envA dbA { save := false } "opuser" "pw" "operator" "accA" "tokT"
        st0).2.1 = false := by
  constructor <;> rfl

/-- C3 (amended): login is NOT all-or-nothing on the happy path.  When the
refresh-token persistence pipeline fails after minting, the safeExecute
wrapper swallows the failure (fallback undefined): login still returns the
minted pair and leaves the store unchanged, so the returned refresh token is
untracked. -/
theorem c3_login_succeeds_despite_persistence_failure (env : Env) (db : Db)
    (l p r a t : String) (st : RedisState) (u : UserRec)
    (hval : (validateUser env db l p r).1 = some u)
    (hlock : isAccountLocked (l ++ ":" ++ r) MAX_LOGIN_ATTEMPTS st = false) :
    login env db { save := false } l p r a t st = (.success u.id a t, st, true) := by
  unfold login
  rw [hval]
  simp [safeExecute, hlock]

/-- Witness for C3: the amended theorem applied at the concrete operator
login with a failing save pipeline. -/
theorem c3_witness :
    (validateUser envA dbA "opuser" "pw" "operator").1 = some userOp ∧
    login envA dbA { save := false } "opuser" "pw" "operator" "accA" "tokT" st0 =
      (.success 1 "accA" "tokT", st0, true) := by
  have h1 : (validateUser envA dbA "opuser" "pw" "operator").1 = some userOp := by
    rfl
  have h2 : isAccountLocked ("opuser" ++ ":" ++ "operator") MAX_LOGIN_ATTEMPTS st0
      = false := by rfl
  exact ⟨h1, c3_login_succeeds_despite_persistence_failure envA dbA "opuser" "pw"
    "operator" "accA" "tokT" st0 userOp h1 h2⟩

/-- C8: store failures on safeExecute-wrapped checks degrade to the fallback
— a failing lockout check lets login proceed to the validator, a failing
force-logout check lets the authenticated request through — but the claim
that store unavailability is NEVER surfaced fails: the getLockTTL read on
the locked path is not wrapped, so when the lockout check succeeds (account
locked) and the TTL read then throws, the raw store error escapes login. -/
theorem c8_fail_open_except_unwrapped_ttl_read :
    (∀ (α : Type) (fb : α), safeExecute (.error ()) fb = fb)
  ∧ (∀ (env : Env) (db : Db) (l p r a t : String) (st : RedisState),
      (login env db { lockCheck := false } l p r a t st).2.2 = true)
  ∧ (∀ (u : JwtPayload) (st : RedisState),
      handleRequest false (some u) st = .allowed u)
  ∧ (login envA dbA { lockTTL := false } "opuser" "pw" "operator" "a" "t"
      stLocked).1 = .storeError := by
  refine ⟨fun α fb => rfl, ?_, ?_, rfl⟩
  · intro env db l p r a t st
    unfold login
    cases hv : (validateUser env db l p r).1 <;> simp [safeExecute, hv]
    split_ifs <;> rfl
  · intro u st
    simp [handleRequest]

/-- C4 counterexample: a credential-validation attempt whose claimed role is
outside the UserRole enum hits the default switch branch and returns null
BEFORE any bcrypt comparison — zero comparisons, not exactly one. -/
theorem c4_counterexample :
    (validateUser envA dbA "opuser" "pw" "superuser").2.length = 0 ∧
    (validateUser envA dbA "opuser" "pw" "superuser").2.length ≠ 1 := by
  constructor <;> decide

/-- C4 (amended): for every credential-validation attempt whose claimed role
is one of the four recognized roles, validateUser performs exactly one
bcrypt comparison — against the stored hash when a record with a non-empty
hash is found, else against the process dummy hash (the source computes
hashToCompare as user password or dummyHash); an unrecognized role returns
null without any comparison. -/
theorem c4_exactly_one_comparison (env : Env) (db : Db)
    (loginName password role : String) (h : roleRecognized role = true) :
    (validateUser env db loginName password role).2 =
      [(password, hashForAttempt env db role loginName)] := by
  have hsplit : ((role = "admin" ∨ role = "operator") ∨ role = "director") ∨
      role = "master" := by
    simpa [roleRecognized, Bool.or_eq_true, beq_iff_eq] using h
  rw [or_assoc, or_assoc] at hsplit
  rcases hsplit with h1 | h1 | h1 | h1 <;> subst h1
  · cases hby : db.callcentreAdmin.byLogin loginName <;>
      simp [validateUser_comparisons, hashForAttempt, lookupByRole, hby]
  · cases hby : db.callcentreOperator.byLogin loginName <;>
      simp [validateUser_comparisons, hashForAttempt, lookupByRole, hby]
  · cases hby : db.director.byLogin loginName <;>
      simp [validateUser_comparisons, hashForAttempt, lookupByRole, hby]
  · cases hby : db.master.byLogin loginName <;>
      simp [validateUser_comparisons, hashForAttempt, lookupByRole, hby]

/-- Witness for C4: the amended theorem applied at a concrete operator
attempt (record found, one comparison against the real hash). -/
theorem c4_witness :
    roleRecognized "operator" = true ∧
    (validateUser envA dbA "opuser" "pw" "operator").2 =
      [("pw", hashForAttempt envA dbA "operator" "opuser")] :=
  ⟨by decide,
   c4_exactly_one_comparison envA dbA "opuser" "pw" "operator" (by decide)⟩

/-- C5: uniform failure outcome.  Every listed failure condition — unknown
login, wrong password, unknown role, operator whose status is not active,
master without a set password or not in working status — makes validateUser
answer null; and two failing logins whose attempt counters agree (below the
lockout threshold) produce identical caller-visible results, whatever the
internal cause of the failure. -/
theorem c5_uniform_failure :
    (∀ (env : Env) (db : Db) (l p : String),
      db.callcentreOperator.byLogin l = none →
      (validateUser env db l p "operator").1 = none)
  ∧ (∀ (env : Env) (db : Db) (l p : String) (u : UserRec),
      db.callcentreOperator.byLogin l = some u →
      env.compare p (if u.password = "" then env.dummyHash else u.password) = false →
      (validateUser env db l p "operator").1 = none)
  ∧ (∀ (env : Env) (db : Db) (l p role : String),
      roleRecognized role = false →
      (validateUser env db l p role).1 = none)
  ∧ (∀ (env : Env) (db : Db) (l p : String) (u : UserRec),
      db.callcentreOperator.byLogin l = some u → u.status ≠ "active" →
      (validateUser env db l p "operator").1 = none)
  ∧ (∀ (env : Env) (db : Db) (l p : String) (u : UserRec),
      db.master.byLogin l = some u →
      (u.password = "" ∨ u.statusWork ≠ "работает") →
      (validateUser env db l p "master").1 = none)
  ∧ (∀ (env1 : Env) (db1 : Db) (l1 p1 r1 a1 t1 : String)
       (env2 : Env) (db2 : Db) (l2 p2 r2 a2 t2 : String)
       (st1 st2 : RedisState),
      (validateUser env1 db1 l1 p1 r1).1 = none →
      (validateUser env2 db2 l2 p2 r2).1 = none →
      getLoginAttempts (l1 ++ ":" ++ r1) st1 = getLoginAttempts (l2 ++ ":" ++ r2) st2 →
      getLoginAttempts (l1 ++ ":" ++ r1) st1 < MAX_LOGIN_ATTEMPTS →
      (login env1 db1 allOk l1 p1 r1 a1 t1 st1).1 =
        (login env2 db2 allOk l2 p2 r2 a2 t2 st2).1) := by
  refine ⟨?_, ?_, ?_, ?_, ?_, ?_⟩
  · intro env db l p hby
    simp [validateUser, lookupByRole, hby]
  · intro env db l p u hby hcmp
    simp [validateUser, lookupByRole, hby, hcmp]
  · intro env db l p role h
    have hne : role ≠ "admin" ∧ role ≠ "operator" ∧ role ≠ "director" ∧
        role ≠ "master" := by
      simp only [roleRecognized, Bool.or_eq_false_iff, beq_eq_false_iff_ne] at h
      exact ⟨h.1.1.1, h.1.1.2, h.1.2, h.2⟩
    simp [validateUser, lookupByRole, hne.1, hne.2.1, hne.2.2.1, hne.2.2.2]
  · intro env db l p u hby hst
    cases hcmp : env.compare p (if u.password = "" then env.dummyHash else u.password) <;>
      simp [validateUser, lookupByRole, hby, hcmp, hst]
  · intro env db l p u hby helig
    cases hcmp : env.compare p (if u.password = "" then env.dummyHash else u.password) <;>
      simp [validateUser, lookupByRole, hby, hcmp, helig]
  · intro env1 db1 l1 p1 r1 a1 t1 env2 db2 l2 p2 r2 a2 t2 st1 st2 hv1 hv2 hcnt hlt
    have e1 : isAccountLocked (l1 ++ ":" ++ r1) MAX_LOGIN_ATTEMPTS st1 = false := by
      simp only [isAccountLocked, decide_eq_false_iff_not, not_le]
      exact hlt
    have e2 : isAccountLocked (l2 ++ ":" ++ r2) MAX_LOGIN_ATTEMPTS st2 = false := by
      simp only [isAccountLocked, decide_eq_false_iff_not, not_le]
      exact hcnt ▸ hlt
    rw [login_failure_eq env1 db1 l1 p1 r1 a1 t1 st1 hv1 e1,
        login_failure_eq env2 db2 l2 p2 r2 a2 t2 st2 hv2 e2]
    simp only [hcnt]

/-- Witness for C5: two failing logins with different internal causes (wrong
password for an existing operator; unknown operator login) at equal attempt
counts produce the same caller-visible result. -/
theorem c5_witness :
    (validateUser envA dbA "opuser" "badpw" "operator").1 = none ∧
    (validateUser envA dbA "ghost" "pw" "operator").1 = none ∧
    (login envA dbA allOk "opuser" "badpw" "operator" "a1" "t1" st0).1 =
      (login envA dbA allOk "ghost" "pw" "operator" "a2" "t2" st0).1 :=
  ⟨by decide, by decide,
   c5_uniform_failure.2.2.2.2.2 envA dbA "opuser" "badpw" "operator" "a1" "t1"
     envA dbA "ghost" "pw" "operator" "a2" "t2" st0 st0
     (by decide) (by decide) (by decide) (by decide)⟩

/-- C6: the login throttle.  At or past MAX_LOGIN_ATTEMPTS recorded attempts
the request is rejected as locked (with the window TTL in minutes) without
invoking the credential validator and without touching the store — whatever
the credentials; a successful login below the maximum returns the pair and
its whole store effect is the single saveRefreshTokenAndResetAttempts
pipeline, which both persists the new refresh token and clears the counter
(count drops to 0, token becomes live); a failed login increments the
counter and never resets it. -/
theorem c6_login_throttle :
    (∀ (env : Env) (db : Db) (l p r a t : String) (st : RedisState),
      MAX_LOGIN_ATTEMPTS ≤ getLoginAttempts (l ++ ":" ++ r) st →
      login env db allOk l p r a t st =
        (.locked (secondsToMinutes (getLockTTL (l ++ ":" ++ r) st)), st, false))
  ∧ (∀ (env : Env) (db : Db) (l p r a t : String) (st : RedisState) (u : UserRec),
      getLoginAttempts (l ++ ":" ++ r) st < MAX_LOGIN_ATTEMPTS →
      (validateUser env db l p r).1 = some u →
      login env db allOk l p r a t st =
        (.success u.id a t,
         saveRefreshTokenAndResetAttempts u.id r t REFRESH_TTL_SECONDS
           (l ++ ":" ++ r) st, true) ∧
      getLoginAttempts (l ++ ":" ++ r)
        (saveRefreshTokenAndResetAttempts u.id r t REFRESH_TTL_SECONDS
          (l ++ ":" ++ r) st) = 0 ∧
      isRefreshTokenValid u.id r t
        (saveRefreshTokenAndResetAttempts u.id r t REFRESH_TTL_SECONDS
          (l ++ ":" ++ r) st) = true)
  ∧ (∀ (env : Env) (db : Db) (l p r a t : String) (st : RedisState),
      getLoginAttempts (l ++ ":" ++ r) st < MAX_LOGIN_ATTEMPTS →
      (validateUser env db l p r).1 = none →
      getLoginAttempts (l ++ ":" ++ r) (login env db allOk l p r a t st).2.1 =
        getLoginAttempts (l ++ ":" ++ r) st + 1) := by
  refine ⟨?_, ?_, ?_⟩
  · intro env db l p r a t st h
    have hl : isAccountLocked (l ++ ":" ++ r) MAX_LOGIN_ATTEMPTS st = true := by
      simp only [isAccountLocked, decide_eq_true_eq]
      exact h
    exact login_locked_eq env db l p r a t st hl
  · intro env db l p r a t st u hlt hval
    have hl : isAccountLocked (l ++ ":" ++ r) MAX_LOGIN_ATTEMPTS st = false := by
      simp only [isAccountLocked, decide_eq_false_iff_not, not_le]
      exact hlt
    exact ⟨login_success_eq env db l p r a t st u hval hl,
      getLoginAttempts_after_save u.id r t REFRESH_TTL_SECONDS (l ++ ":" ++ r) st,
      isRefreshTokenValid_after_save_pipeline u.id r t REFRESH_TTL_SECONDS
        (l ++ ":" ++ r) st⟩
  · intro env db l p r a t st hlt hval
    have hl : isAccountLocked (l ++ ":" ++ r) MAX_LOGIN_ATTEMPTS st = false := by
      simp only [isAccountLocked, decide_eq_false_iff_not, not_le]
      exact hlt
    rw [login_failure_eq env db l p r a t st hval hl]
    exact getLoginAttempts_after_record (l ++ ":" ++ r) st

/-- Witness for C6: a locked account rejects a login with correct
credentials without running the validator; a fresh successful login persists
the token and zeroes the counter in one pipeline. -/
theorem c6_witness :
    (MAX_LOGIN_ATTEMPTS ≤ getLoginAttempts ("opuser" ++ ":" ++ "operator") stLocked ∧
     login envA dbA allOk "opuser" "pw" "operator" "a" "t" stLocked =
       (.locked (secondsToMinutes (getLockTTL ("opuser" ++ ":" ++ "operator") stLocked)),
        stLocked, false)) ∧
    (login envA dbA allOk "opuser" "pw" "operator" "a" "t" st0 =
       (.success userOp.id "a" "t",
        saveRefreshTokenAndResetAttempts userOp.id "operator" "t" REFRESH_TTL_SECONDS
          ("opuser" ++ ":" ++ "operator") st0, true) ∧
     getLoginAttempts ("opuser" ++ ":" ++ "operator")
       (saveRefreshTokenAndResetAttempts userOp.id "operator" "t" REFRESH_TTL_SECONDS
         ("opuser" ++ ":" ++ "operator") st0) = 0 ∧
     isRefreshTokenValid userOp.id "operator" "t"
       (saveRefreshTokenAndResetAttempts userOp.id "operator" "t" REFRESH_TTL_SECONDS
         ("opuser" ++ ":" ++ "operator") st0) = true) :=
  ⟨⟨by decide,
    c6_login_throttle.1 envA dbA "opuser" "pw" "operator" "a" "t" stLocked (by decide)⟩,
   c6_login_throttle.2.1 envA dbA "opuser" "pw" "operator" "a" "t" st0 userOp
     (by decide) (by decide)⟩

/-- C2: reuse detection on redemption of an absent token.  With a matching
tombstone the outcome is the security-violation response and a full teardown
(no live token of the principal survives, its set is emptied); with no
tombstone the outcome is the ordinary revoked-token invalidity; the two
responses are distinct constructors; and redeeming the same live token twice
in sequence makes the first call succeed with the fresh pair and the
immediate replay end in the security violation. -/
theorem c2_reuse_detection :
    (∀ (env : Env) (a r tok : String) (st : RedisState) (p : JwtPayload),
      env.verifyRefresh tok = some p →
      isRefreshTokenValid p.sub p.role tok st = false →
      wasTokenRecentlyRevoked p.sub p.role tok st = true →
      TokensIndexed p.sub p.role st →
      refreshTokenModel env allRefOk a r tok st =
        (.securityViolation, revokeAllUserTokens p.sub p.role st) ∧
      userTokens p.sub p.role (revokeAllUserTokens p.sub p.role st) = [] ∧
      setMembers p.sub p.role (revokeAllUserTokens p.sub p.role st) = [])
  ∧ (∀ (env : Env) (a r tok : String) (st : RedisState) (p : JwtPayload),
      env.verifyRefresh tok = some p →
      isRefreshTokenValid p.sub p.role tok st = false →
      wasTokenRecentlyRevoked p.sub p.role tok st = false →
      refreshTokenModel env allRefOk a r tok st = (.revoked, st))
  ∧ (RefreshResult.securityViolation ≠ RefreshResult.revoked ∧
     RefreshResult.securityViolation ≠ RefreshResult.invalidOrExpired)
  ∧ (∀ (env : Env) (a1 r1 a2 r2 tok : String) (st : RedisState) (p : JwtPayload),
      env.verifyRefresh tok = some p →
      isRefreshTokenValid p.sub p.role tok st = true →
      r1 ≠ tok →
      refreshTokenModel env allRefOk a1 r1 tok st =
        (.refreshed a1 r1,
         saveRefreshToken p.sub p.role r1 REFRESH_TTL_SECONDS
           (revokeRefreshTokenWithTracking p.sub p.role tok
             REVOKED_TOKEN_TRACKING_TTL st)) ∧
      (refreshTokenModel env allRefOk a2 r2 tok
        (saveRefreshToken p.sub p.role r1 REFRESH_TTL_SECONDS
          (revokeRefreshTokenWithTracking p.sub p.role tok
            REVOKED_TOKEN_TRACKING_TTL st))).1 = .securityViolation) := by
  refine ⟨?_, ?_, ⟨by decide, by decide⟩, ?_⟩
  · intro env a r tok st p hver hnot htomb hinv
    have hclears := revokeAll_clears p.sub p.role st hinv
    refine ⟨?_, hclears.1, hclears.2⟩
    unfold refreshTokenModel
    rw [hver]
    simp [allRefOk, hnot, htomb]
  · intro env a r tok st p hver hnot htomb
    unfold refreshTokenModel
    rw [hver]
    simp [allRefOk, hnot, htomb]
  · intro env a1 r1 a2 r2 tok st p hver hvalid hne
    have hfirst : refreshTokenModel env allRefOk a1 r1 tok st =
        (.refreshed a1 r1,
         saveRefreshToken p.sub p.role r1 REFRESH_TTL_SECONDS
           (revokeRefreshTokenWithTracking p.sub p.role tok
             REVOKED_TOKEN_TRACKING_TTL st)) := by
      unfold refreshTokenModel
      rw [hver]
      simp [allRefOk, hvalid]
    refine ⟨hfirst, ?_⟩
    have hval2 : isRefreshTokenValid p.sub p.role tok
        (saveRefreshToken p.sub p.role r1 REFRESH_TTL_SECONDS
          (revokeRefreshTokenWithTracking p.sub p.role tok
            REVOKED_TOKEN_TRACKING_TTL st)) = false := by
      unfold isRefreshTokenValid saveRefreshToken revokeRefreshTokenWithTracking
      rw [decide_eq_false_iff_not]
      intro hmem
      rcases mem_insertTok.mp hmem with hmem1 | hmem1
      · exact (mem_removeTok.mp hmem1).2 rfl
      · exact hne (by injection hmem1 with _ h2; injection h2 with _ h3; exact h3.symm)
    have htomb2 : wasTokenRecentlyRevoked p.sub p.role tok
        (saveRefreshToken p.sub p.role r1 REFRESH_TTL_SECONDS
          (revokeRefreshTokenWithTracking p.sub p.role tok
            REVOKED_TOKEN_TRACKING_TTL st)) = true := by
      unfold wasTokenRecentlyRevoked saveRefreshToken revokeRefreshTokenWithTracking
      exact decide_eq_true (mem_insertTok.mpr (Or.inr rfl))
    unfold refreshTokenModel
    rw [hver]
    simp [allRefOk, hval2, htomb2]

/-- Witness for C2: redeeming the live token tokT of the sample operator and
then replaying it: the first call returns the fresh pair, the replay ends in
the security violation. -/
theorem c2_witness :
    refreshTokenModel envA allRefOk "accA1" "tokR1" "tokT" stLive =
      (.refreshed "accA1" "tokR1",
       saveRefreshToken payloadA.sub payloadA.role "tokR1" REFRESH_TTL_SECONDS
         (revokeRefreshTokenWithTracking payloadA.sub payloadA.role "tokT"
           REVOKED_TOKEN_TRACKING_TTL stLive)) ∧
    (refreshTokenModel envA allRefOk "accA2" "tokR2" "tokT"
      (saveRefreshToken payloadA.sub payloadA.role "tokR1" REFRESH_TTL_SECONDS
        (revokeRefreshTokenWithTracking payloadA.sub payloadA.role "tokT"
          REVOKED_TOKEN_TRACKING_TTL stLive))).1 = .securityViolation :=
  c2_reuse_detection.2.2.2 envA "accA1" "tokR1" "accA2" "tokR2" "tokT" stLive
    payloadA (by decide) (by decide) (by decide)

/-- C7: administrative force logout.  A caller without the admin role is
rejected with Forbidden and the store is untouched.  An admin caller tears
down every live refresh token of the target (set emptied), writes the
force-logout flag with the 15-minute TTL — which is at least the
access-token TTL — and from then on the guard rejects the target's
still-valid access token with Unauthorized, while before the call (flag
absent) the same request was allowed. -/
theorem c7_force_logout :
    (∀ (cr : String) (tid : Nat) (tr : String) (st : RedisState),
      cr ≠ "admin" → forceLogoutController cr tid tr st = (.forbidden, st))
  ∧ (∀ (tid : Nat) (tr : String) (st : RedisState),
      TokensIndexed tid tr st →
      (forceLogoutController "admin" tid tr st).1 = .done ∧
      userTokens tid tr (forceLogoutController "admin" tid tr st).2 = [] ∧
      setMembers tid tr (forceLogoutController "admin" tid tr st).2 = [] ∧
      forceFlagTTL tid tr (forceLogoutController "admin" tid tr st).2 =
        some FORCE_LOGOUT_TTL_SECONDS ∧
      ACCESS_TOKEN_TTL_SECONDS ≤ FORCE_LOGOUT_TTL_SECONDS ∧
      (∀ u : JwtPayload, u.sub = tid → u.role = tr → u.sub ≠ 0 → u.role ≠ "" →
        handleRequest true (some u) (forceLogoutController "admin" tid tr st).2 =
          .unauthorized) ∧
      (∀ u : JwtPayload, u.sub = tid → u.role = tr →
        isUserForcedLogout tid tr st = false →
        handleRequest true (some u) st = .allowed u)) := by
  constructor
  · intro cr tid tr st hcr
    unfold forceLogoutController
    rw [if_pos hcr]
  · intro tid tr st hinv
    have hctrl : forceLogoutController "admin" tid tr st =
        (.done, forceLogoutService tid tr st) := by
      unfold forceLogoutController
      rw [if_neg (by simp)]
    have hclears := revokeAll_clears tid tr st hinv
    rw [hctrl]
    refine ⟨rfl, hclears.1, hclears.2,
      forceFlagTTL_after_set tid tr FORCE_LOGOUT_TTL_SECONDS
        (revokeAllUserTokens tid tr st),
      by decide, ?_, ?_⟩
    · intro u hsub hrole hs0 hr0
      simp only [handleRequest, forceLogoutService]
      rw [if_pos ⟨hs0, hr0⟩, hsub, hrole]
      simp [isUserForcedLogout_after_set]
    · intro u hsub hrole hflag
      by_cases hc : u.sub ≠ 0 ∧ u.role ≠ ""
      · simp only [handleRequest]
        rw [if_pos hc, hsub, hrole, hflag]
        simp
      · simp only [handleRequest]
        rw [if_neg hc]

/-- Witness for C7: a non-admin caller is refused on the sample store; an
admin caller evicts the target operator's live token, sets the flag, and the
guard flips from allowing the operator's request to rejecting it. -/
theorem c7_witness :
    forceLogoutController "operator" 1 "operator" stLive = (.forbidden, stLive) ∧
    (forceLogoutController "admin" 1 "operator" stLive).1 = .done ∧
    userTokens 1 "operator" (forceLogoutController "admin" 1 "operator" stLive).2 = [] ∧
    forceFlagTTL 1 "operator" (forceLogoutController "admin" 1 "operator" stLive).2 =
      some FORCE_LOGOUT_TTL_SECONDS ∧
    handleRequest true (some payloadA)
      (forceLogoutController "admin" 1 "operator" stLive).2 = .unauthorized ∧
    handleRequest true (some payloadA) stLive = .allowed payloadA := by
  have h := c7_force_logout
  have h2 := h.2 1 "operator" stLive (fun k hk _ _ => hk)
  exact ⟨h.1 "operator" 1 "operator" stLive (by decide), h2.1, h2.2.1,
    h2.2.2.2.1,
    h2.2.2.2.2.2.1 payloadA rfl rfl (by decide) (by decide),
    h2.2.2.2.2.2.2 payloadA rfl rfl (by decide)⟩

/-- C9: profile cache read-through.  A miss (no cache entry for the
principal) invokes the external role-specific lookup and writes the payload
back with the 15-minute TTL; a hit returns the cached payload without any
external call; the written entry is immediately readable with that TTL, so
the second call right after a miss is a hit; a store failure on the cache
read is treated as a miss (external lookup runs even if an entry exists);
and the write-back is best effort. -/
theorem c9_profile_cache :
    (∀ (db : Db) (u : JwtPayload) (st : RedisState) (urec : UserRec),
      cacheGet ("profile:" ++ u.role ++ ":" ++ toString u.sub) st = none →
      profileLookupById db u.role u.sub = some urec →
      roleRecognized u.role = true →
      getProfileModel db true true u st =
        (.found ⟨urec, u.role⟩,
         cacheSet ("profile:" ++ u.role ++ ":" ++ toString u.sub) ⟨urec, u.role⟩
           PROFILE_CACHE_TTL st, true))
  ∧ (∀ (db : Db) (wOk : Bool) (u : JwtPayload) (st : RedisState) (p : UserProfile),
      cacheGet ("profile:" ++ u.role ++ ":" ++ toString u.sub) st = some p →
      getProfileModel db true wOk u st = (.found p, st, false))
  ∧ (∀ (key : String) (v : UserProfile) (ttl : Nat) (st : RedisState),
      cacheGet key (cacheSet key v ttl st) = some v ∧
      cacheTTL key (cacheSet key v ttl st) = some ttl)
  ∧ (∀ (db : Db) (wOk : Bool) (u : JwtPayload) (st : RedisState) (urec : UserRec),
      profileLookupById db u.role u.sub = some urec →
      roleRecognized u.role = true →
      getProfileModel db false wOk u st =
        (.found ⟨urec, u.role⟩,
         (if wOk then
            cacheSet ("profile:" ++ u.role ++ ":" ++ toString u.sub)
              ⟨urec, u.role⟩ PROFILE_CACHE_TTL st
          else st), true))
  ∧ (∀ (db : Db) (u : JwtPayload) (st : RedisState) (urec : UserRec),
      cacheGet ("profile:" ++ u.role ++ ":" ++ toString u.sub) st = none →
      profileLookupById db u.role u.sub = some urec →
      roleRecognized u.role = true →
      getProfileModel db true true u ((getProfileModel db true true u st).2.1) =
        (.found ⟨urec, u.role⟩, (getProfileModel db true true u st).2.1, false)) := by
  refine ⟨?_, ?_, ?_, ?_, ?_⟩
  · intro db u st urec hcache hdb hrole
    unfold getProfileModel
    simp [safeExecute, hcache, hdb, hrole]
  · intro db wOk u st p hcache
    unfold getProfileModel
    simp [safeExecute, hcache]
  · intro key v ttl st
    exact ⟨cacheGet_after_set key v ttl st, cacheTTL_after_set key v ttl st⟩
  · intro db wOk u st urec hdb hrole
    unfold getProfileModel
    cases wOk <;> simp [safeExecute, hdb, hrole]
  · intro db u st urec hcache hdb hrole
    have h1 : (getProfileModel db true true u st).2.1 =
        cacheSet ("profile:" ++ u.role ++ ":" ++ toString u.sub) ⟨urec, u.role⟩
          PROFILE_CACHE_TTL st := by
      unfold getProfileModel
      simp [safeExecute, hcache, hdb, hrole]
    rw [h1]
    unfold getProfileModel
    simp [safeExecute, cacheGet_after_set]

/-- Witness for C9: the first getProfile of the sample operator misses and
writes the payload back; the immediate second call hits and performs no
external lookup. -/
theorem c9_witness :
    cacheGet ("profile:" ++ "operator" ++ ":" ++ toString (1 : Nat)) st0 = none ∧
    getProfileModel dbA true true payloadA st0 =
      (.found ⟨userOp, "operator"⟩,
       cacheSet ("profile:" ++ "operator" ++ ":" ++ toString (1 : Nat))
         ⟨userOp, "operator"⟩ PROFILE_CACHE_TTL st0, true) ∧
    getProfileModel dbA true true payloadA
      ((getProfileModel dbA true true payloadA st0).2.1) =
      (.found ⟨userOp, "operator"⟩,
       (getProfileModel dbA true true payloadA st0).2.1, false) :=
  ⟨by decide,
   c9_profile_cache.1 dbA payloadA st0 userOp (by decide) (by decide) (by decide),
   c9_profile_cache.2.2.2.2 dbA payloadA st0 userOp (by decide) (by decide)
     (by decide)⟩

end AuthSpec
